import Mathlib

/-
Verification of the pydsge estimation and filtering core
(src/pydsge/estimation.py and src/pydsge/filtering.py).

Shallow embedding conventions:

* numpy log-densities are modelled by `LogVal`: a finite rational, or one of
  the two IEEE infinities.  `np.isinf` is `LogVal.isinf`.  NaN payloads never
  arise on the code paths under study (scipy logpdf of a real argument is
  real or infinite, and the code short-circuits before any inf-plus-finite
  sum), so no NaN constructor is carried; in `LogVal.add` the unreachable
  mixed-infinity case is resolved towards `neginf`.
* Python exceptions are modelled by `Except Exc`; the `Exc` type names the
  exception classes the two modules raise or catch.
* The global numpy random-number-generator state is an opaque token
  `RngState`; `np.random.seed` is `RngState.ofSeed`, and external consumers
  of randomness thread the token explicitly.
* External collaborators (`get_sys`, `get_ll`, the filter object, `npas`,
  `set_par`, the digit-extraction seed formula which is floating-point) are
  abstracted into `Env` / `ExtractEnv` records of functions; the control
  flow of `llike`, `lprob`, `lprior`, `mapper`, `runner` and `extract` is
  translated line by line from the source.
-/

/-- Exception classes raised or caught by the estimation and filtering
modules. `numerical` stands for any numeric failure bubbling out of the
external kernels (singular matrix, promoted warning, overflow, ...). -/
inductive Exc where
  | attributeError
  | notImplementedError
  | keyboardInterrupt
  | indexError
  | valueError
  | numerical (code : Nat)
deriving DecidableEq

/-- A numpy double holding a log-density: finite, `-inf` or `+inf`. -/
inductive LogVal where
  | finite (x : ℚ)
  | neginf
  | posinf
deriving DecidableEq

namespace LogVal

/-- `np.isinf`. -/
def isinf : LogVal → Bool
  | finite _ => false
  | neginf => true
  | posinf => true

/-- IEEE addition on log-densities.  The mixed-infinity case (`-inf + inf`,
NaN in IEEE arithmetic) is unreachable in the translated code, which only
ever adds two finite values or accumulates infinities of one sign; it is
resolved towards `neginf` here. -/
def add : LogVal → LogVal → LogVal
  | finite x, finite y => finite (x + y)
  | neginf, _ => neginf
  | _, neginf => neginf
  | posinf, _ => posinf
  | _, posinf => posinf

/-- IEEE multiplication by a scalar temperature.  Only reached with a
nonzero temperature (`ll * temp` is guarded by `if temp` in the source), so
the `0 * inf` NaN case is unreachable; sign handling is faithful. -/
def scale (v : LogVal) (t : ℚ) : LogVal :=
  match v with
  | finite x => finite (x * t)
  | neginf => if 0 < t then neginf else posinf
  | posinf => if 0 < t then posinf else neginf

end LogVal

/-- Opaque token for the global numpy Mersenne-Twister state. -/
structure RngState where
  val : Nat
deriving DecidableEq

/-- `np.random.seed s` puts the generator in a state determined by `s`. -/
def RngState.ofSeed (s : Nat) : RngState := ⟨s⟩

/-- External collaborators used by `llike` and `lprob`
(estimation.py lines 117-217), abstracted as an environment record.

* `filterName` is `self.filter.name`.
* `getSysNl` models lines 134-136: the nonlinear rebuild
  (`get_sys(l_max=3, k_max=16)` plus the `filter.Q` update); it may raise.
* `getSysLin` models lines 141-147: the linear rebuild
  (`get_sys(l_max=1, k_max=0)` plus `filter.F`, `filter.H`, `filter.Q`).
* `getLl` models the `get_ll` call on line 149: from the seeded generator
  state it produces a log-likelihood (NaN already folded to `-inf` by
  `run_filter`) and an advanced generator state, or raises.
* `vecSeed` is the digit-extraction sum of lines 194-195; its
  floating-point arithmetic is implementation-defined and abstracted.
* `randint` is `np.random.randint(2**32-2)`: consumes generator state. -/
structure Env where
  filterName : String
  getSysNl : List ℚ → Except Exc Unit
  getSysLin : List ℚ → Except Exc Unit
  getLl : List ℚ → Bool → RngState → Except Exc (LogVal × RngState)
  vecSeed : List ℚ → Int
  randint : RngState → Int × RngState

/-- Body of the `try:` block of `llike` (estimation.py lines 121-153):
seed the generator, check the linearity/filter-kind match (raising
`AttributeError` on a mismatch), rebuild the system, run the filter.
The substitution `par_fix[prior_arg] = parameters` is folded into the
parameter list handed to the environment. On success the value returned is
the likelihood together with the generator state left by the filter run
(the `np.random.set_state` on line 152 is applied by `llike` below). -/
def llikeBody (env : Env) (parameters : List ℚ) (linear : Bool) (seed : Nat) :
    Except Exc (LogVal × RngState) :=
  let st1 := RngState.ofSeed seed
  if linear = false then
    if env.filterName = "KalmanFilter" then
      Except.error Exc.attributeError
    else
      match env.getSysNl parameters with
      | Except.error e => Except.error e
      | Except.ok _ => env.getLl parameters linear st1
  else
    if env.filterName = "KalmanFilter" then
      match env.getSysLin parameters with
      | Except.error e => Except.error e
      | Except.ok _ => env.getLl parameters linear st1
    else
      Except.error Exc.attributeError

/-- `llike` (estimation.py lines 117-168).  Snapshots the generator state,
runs the body; on an ordinary return it restores the snapshot and hands the
likelihood back; a `KeyboardInterrupt` is re-raised; every other exception
is caught, the snapshot restored, and `-inf` returned. -/
def llike (env : Env) (parameters : List ℚ) (linear : Bool) (seed : Nat)
    (st0 : RngState) : Except Exc (LogVal × RngState) :=
  match llikeBody env parameters linear seed with
  | Except.ok (ll, _) => Except.ok (ll, st0)
  | Except.error Exc.keyboardInterrupt => Except.error Exc.keyboardInterrupt
  | Except.error _ => Except.ok (LogVal.neginf, st0)

/-- `lprior` (estimation.py lines 170-176): starts from `prior = 0` and
accumulates the frozen log-densities coordinate by coordinate.  Each frozen
prior is an abstract function from the coordinate to its log-density. -/
def lprior (frozenPrior : List (ℚ → LogVal)) (par : List ℚ) : LogVal :=
  (frozenPrior.zip par).foldl (fun acc d => acc.add (d.1 d.2)) (LogVal.finite 0)

/-- The seed-resolution block of `lprob` (estimation.py lines 193-204):
policies "vec" and "rand" derive a seed from the parameter digits (plus, for
"rand", a fresh `randint` draw consuming generator state), folded into the
unsigned 32-bit range by the Python modulo; "set" uses the session seed;
anything else raises `NotImplementedError`. -/
def resolveSeed (env : Env) (pol : String) (seed : Nat) (par : List ℚ)
    (st : RngState) : Except Exc (Nat × RngState) :=
  if pol = "vec" ∨ pol = "rand" then
    let base := env.vecSeed par
    let draw := if pol = "rand" then env.randint st else (0, st)
    Except.ok (((base + draw.1) % (2 ^ 32 - 1 : Int)).toNat, draw.2)
  else if pol = "set" then
    Except.ok (seed, st)
  else
    Except.error Exc.notImplementedError

/-- Type of the likelihood evaluator closed over by `lprob`. -/
def LlikeFun : Type :=
  List ℚ → Bool → Nat → RngState → Except Exc (LogVal × RngState)

/-- `lprob` (estimation.py lines 180-217), parameterized over the likelihood
evaluator `f` it closes over (the source closes over `llike`; keeping `f`
a parameter makes the short-circuit paths, on which `llike` is never
invoked, expressible as independence from `f`).  Steps, in source order:
prior evaluation and `isinf` short-circuit; linearity default; seed
resolution; `ll = f(...) * temp if temp else 0`; `isinf` sentinel return;
`ll += lp`; return. -/
def lprob (f : LlikeFun) (env : Env) (frozenPrior : List (ℚ → LogVal))
    (linearPa : Bool) (seed : Nat) (par : List ℚ) (linear : Option Bool)
    (temp : ℚ) (lprobSeed : String) (st : RngState) :
    Except Exc (LogVal × RngState) :=
  let lp := lprior frozenPrior par
  if lp.isinf then
    Except.ok (lp, st)
  else
    let linEff := linear.getD linearPa
    match resolveSeed env lprobSeed seed par st with
    | Except.error e => Except.error e
    | Except.ok (seedLoc, st1) =>
      if temp = 0 then
        Except.ok ((LogVal.finite 0).add lp, st1)
      else
        match f par linEff seedLoc st1 with
        | Except.error e => Except.error e
        | Except.ok (ll0, st2) =>
          let ll := ll0.scale temp
          if ll.isinf then
            Except.ok (ll, st2)
          else
            Except.ok (ll.add lp, st2)

/-- An estimation session as seen by the `mapper` property
(estimation.py lines 258-264).  `poolAttr = none` models a session on which
the `pool` attribute was never set (`hasattr` is false); `poolAttr = some
none` models `self.pool = None` (set by `prep_estim` when `ncores` is a
falsy non-`None` value, line 227); `poolAttr = some (some p)` is a live
pathos pool. -/
structure Session (P : Type) where
  poolAttr : Option (Option P)
  debug : Bool

/-- Which function the `mapper` property hands back: the parallel
`pool.imap` of a concrete pool, or the builtin sequential `map`. -/
inductive MapperChoice (P : Type) where
  | imap (pool : P)
  | seqMap
deriving DecidableEq

/-- The `mapper` property (estimation.py lines 258-264):
`if hasattr(self, "pool") and not self.debug: return self.pool.imap` —
an attribute access that raises `AttributeError` when the attribute holds
`None` — `else: return map`. -/
def mapper {P : Type} (s : Session P) : Except Exc (MapperChoice P) :=
  match s.poolAttr, s.debug with
  | some pl, false =>
    match pl with
    | some p => Except.ok (MapperChoice.imap p)
    | none => Except.error Exc.attributeError
  | _, _ => Except.ok MapperChoice.seqMap

/-- Result tuple of one `npas` call (filtering.py line 213): per-replicate
means, covariances, per-replicate residuals, diagnostic flags. -/
structure Npas (M C R F : Type) where
  means : List M
  covs : C
  resid : List R
  flags : F
deriving DecidableEq

/-- What `runner` returns for one `(parameter, replicate)` pair
(filtering.py line 216): first replicate mean, covariances, first
replicate residual, flags. -/
structure SampleRecord (M C R F : Type) where
  mean : M
  covs : C
  resid : R
  flags : F
deriving DecidableEq

/-- External collaborators serialized by `extract`
(filtering.py lines 195-198), abstracted per call site.

* `setPar` models the serialized `set_par`; it may raise.
* `runFilter` models `run_filter(verbose=False)` after the parameters have
  been set; it may raise (such an exception is outside the retry loop).
* `npas par seed natt` is the decomposition call of line 213 for the given
  session parameters, `seed=seed_loc` (the replicate index), on attempt
  number `natt`: successive attempts may differ because `npas` consumes
  randomness. -/
structure ExtractEnv (P M C R F : Type) where
  setPar : P → Except Exc Unit
  runFilter : Option P → Except Exc Unit
  npas : Option P → Nat → Nat → Except Exc (Npas M C R F)

/-- One iteration of the `try:` body inside the retry loop
(filtering.py lines 212-216): run `npas`, then take `means[0]` and
`resid[0]` (an out-of-range index raises inside the `try`, hence is
retried like any other failure). -/
def attemptRecord {P M C R F : Type} (env : ExtractEnv P M C R F)
    (par : Option P) (seedLoc natt : Nat) :
    Except Exc (SampleRecord M C R F) :=
  match env.npas par seedLoc natt with
  | Except.error e => Except.error e
  | Except.ok o =>
    match o.means with
    | [] => Except.error Exc.indexError
    | m :: _ =>
      match o.resid with
      | [] => Except.error Exc.indexError
      | r :: _ => Except.ok ⟨m, o.covs, r, o.flags⟩

/-- The retry loop `for natt in range(4)` (filtering.py lines 211-221),
written with the current attempt index `natt` and the number of attempts
still allowed after it.  On the last allowed attempt the exception
propagates (`else: raise`); earlier exceptions are swallowed (`pass`) and
the attempt index advances. -/
def runAttempts {A : Type} (att : Nat → Except Exc A) (natt : Nat) :
    Nat → Except Exc A
  | 0 => att natt
  | remaining + 1 =>
    match att natt with
    | Except.ok v => Except.ok v
    | Except.error _ => runAttempts att (natt + 1) remaining

/-- The guarded parameter update of filtering.py lines 204-205:
`if par is not None: set_par(par)`. -/
def setParStep {P M C R F : Type} (env : ExtractEnv P M C R F)
    (par : Option P) : Except Exc Unit :=
  match par with
  | some p => env.setPar p
  | none => Except.ok ()

/-- The per-pair `runner` closure (filtering.py lines 200-221): unpack the
pair, `set_par` when the parameter vector is not `None`, re-run the filter,
then the 4-attempt retry loop around the decomposition. -/
def runner {P M C R F : Type} (env : ExtractEnv P M C R F)
    (arg : Option P × Nat) : Except Exc (SampleRecord M C R F) :=
  match setParStep env arg.1 with
  | Except.error e => Except.error e
  | Except.ok _ =>
    match env.runFilter arg.1 with
    | Except.error e => Except.error e
    | Except.ok _ => runAttempts (attemptRecord env arg.1 arg.2) 0 3

/-- The cross-product expansion of filtering.py line 193:
`[(x, y) for x in sample for y in range(nsamples)]`. -/
def expandSample {P : Type} (sample : List P) (nsamples : Nat) :
    List (P × Nat) :=
  match sample with
  | [] => []
  | x :: xs => ((List.range nsamples).map fun y => (x, y)) ++ expandSample xs nsamples

/-- Consumption of `self.mapper(runner, sample)` by `map2arr`
(filtering.py lines 224-226).  Both mapper choices yield results in
submission order — the builtin `map` trivially, the pathos `imap` by its
ordered-iterator contract — and a worker exception is re-raised at the
iteration that reaches it, aborting the traversal. -/
def mapOrdered {A B : Type} (f : A → Except Exc B) :
    List A → Except Exc (List B)
  | [] => Except.ok []
  | a :: as =>
    match f a with
    | Except.error e => Except.error e
    | Except.ok b =>
      match mapOrdered f as with
      | Except.error e => Except.error e
      | Except.ok bs => Except.ok (b :: bs)

/-- The `edict` report built by `extract` (filtering.py lines 231-235):
parallel ordered sequences keyed `pars`, `means`, `covs`, `resid`,
`flags`. -/
structure ExtractReport (P M C R F : Type) where
  pars : List (Option P)
  means : List M
  covs : List C
  resid : List R
  flags : List F
deriving DecidableEq

/-- Core of `extract` (filtering.py lines 168-252) after input
normalization: expand the sample grid to `(parameter, replicateIndex)`
pairs, map `runner` over them in submission order, and aggregate the
records column-wise (`map2arr`) next to `pars = [s[0] for s in sample]`.
Pool shutdown and the optional `.npz` persistence are I/O outside the
model. -/
def extract {P M C R F : Type} (env : ExtractEnv P M C R F)
    (sample : List (Option P)) (nsamples : Nat) :
    Except Exc (ExtractReport P M C R F) :=
  let pairs := expandSample sample nsamples
  match mapOrdered (runner env) pairs with
  | Except.error e => Except.error e
  | Except.ok recs =>
    Except.ok { pars := pairs.map Prod.fst,
                means := recs.map SampleRecord.mean,
                covs := recs.map SampleRecord.covs,
                resid := recs.map SampleRecord.resid,
                flags := recs.map SampleRecord.flags }

/-- The order the specification describes for the `pars` sequence: each
grid entry repeated `nsamples` times, grid order preserved. -/
def gridOrder {P : Type} (sample : List P) (nsamples : Nat) : List P :=
  match sample with
  | [] => []
  | x :: xs => List.replicate nsamples x ++ gridOrder xs nsamples

/-- Example environment with a bound Kalman filter whose collaborators all
succeed; the filter run consumes one unit of generator state. -/
def envKF : Env :=
  { filterName := "KalmanFilter"
    getSysNl := fun _ => Except.ok ()
    getSysLin := fun _ => Except.ok ()
    getLl := fun _ _ st => Except.ok (LogVal.finite 1, ⟨st.val + 1⟩)
    vecSeed := fun _ => 7
    randint := fun st => (5, ⟨st.val + 1⟩) }

/-- Example environment with a bound ensemble filter whose likelihood run
raises a numerical failure. -/
def envFailLl : Env :=
  { filterName := "TEnKF"
    getSysNl := fun _ => Except.ok ()
    getSysLin := fun _ => Except.ok ()
    getLl := fun _ _ _ => Except.error (Exc.numerical 3)
    vecSeed := fun _ => 7
    randint := fun st => (5, ⟨st.val + 1⟩) }

/-- Example frozen prior assigning finite log-density 2 everywhere. -/
def fpFin : List (ℚ → LogVal) := [fun _ => LogVal.finite 2]

/-- Example frozen prior assigning `-inf` everywhere (out-of-bounds). -/
def fpNeg : List (ℚ → LogVal) := [fun _ => LogVal.neginf]

/-- Evaluation of the finite example prior at the origin. -/
theorem lprior_fpFin_eval : lprior fpFin [0] = LogVal.finite 2 := by
  simp [lprior, fpFin, LogVal.add]

/-- Claim C1, counterexample: with a Kalman filter bound and the nonlinear
path requested, `llike` does not raise the mismatch to its caller — the
`AttributeError` is caught by the broad handler and converted to the
`-inf` return the claim says can never happen. -/
theorem llike_mismatch_not_raised_cex :
    llike envKF [0] false 0 ⟨0⟩ = Except.ok (LogVal.neginf, ⟨0⟩) ∧
    llike envKF [0] false 0 ⟨0⟩ ≠ Except.error Exc.attributeError :=
  ⟨rfl, fun h => Except.noConfusion h⟩

/-- Claim C1 (amended): a linearity/filter-kind mismatch raises an
`AttributeError` inside the `try:` body of `llike`, but the broad
exception containment catches it, so `llike` returns `-inf` to the caller
(with the generator state restored) instead of propagating the fault. -/
theorem llike_mismatch_contained (env : Env) (par : List ℚ) (seed : Nat)
    (st : RngState) :
    (env.filterName = "KalmanFilter" →
      llikeBody env par false seed = Except.error Exc.attributeError ∧
      llike env par false seed st = Except.ok (LogVal.neginf, st)) ∧
    (¬ env.filterName = "KalmanFilter" →
      llikeBody env par true seed = Except.error Exc.attributeError ∧
      llike env par true seed st = Except.ok (LogVal.neginf, st)) := by
  constructor
  · intro h
    refine ⟨by simp [llikeBody, h], ?_⟩
    simp [llike, llikeBody, h]
  · intro h
    refine ⟨by simp [llikeBody, h], ?_⟩
    simp [llike, llikeBody, h]

/-- Claim C1, witness: concrete mismatched call evaluated through the
amended theorem. -/
theorem llike_mismatch_contained_witness :
    envKF.filterName = "KalmanFilter" ∧
    llike envKF [1] false 5 ⟨2⟩ = Except.ok (LogVal.neginf, ⟨2⟩) :=
  ⟨rfl, ((llike_mismatch_contained envKF [1] 5 ⟨2⟩).1 rfl).2⟩

/-- Claim C2: whenever `llike` returns (success or caught failure), the
generator state it leaves behind equals the state at entry. -/
theorem llike_restores_rng (env : Env) (par : List ℚ) (linear : Bool)
    (seed : Nat) (st0 : RngState) (r : LogVal) (stf : RngState)
    (h : llike env par linear seed st0 = Except.ok (r, stf)) : stf = st0 := by
  unfold llike at h
  cases hb : llikeBody env par linear seed with
  | ok v =>
    obtain ⟨ll, st1⟩ := v
    rw [hb] at h
    simp at h
    exact h.2.symm
  | error e =>
    rw [hb] at h
    cases e <;> simp at h <;> exact h.2.symm

/-- Claim C2, witness: one successful call and one call whose filter run
fails, both leaving the entry state untouched. -/
theorem llike_restores_rng_witness :
    llike envKF [0] true 0 ⟨3⟩ = Except.ok (LogVal.finite 1, ⟨3⟩) ∧
    ((⟨3⟩ : RngState) = ⟨3⟩) ∧
    llike envFailLl [0] false 0 ⟨4⟩ = Except.ok (LogVal.neginf, ⟨4⟩) ∧
    ((⟨4⟩ : RngState) = ⟨4⟩) :=
  ⟨rfl, llike_restores_rng envKF [0] true 0 ⟨3⟩ (LogVal.finite 1) ⟨3⟩ rfl,
   rfl, llike_restores_rng envFailLl [0] false 0 ⟨4⟩ LogVal.neginf ⟨4⟩ rfl⟩

/-- Claim C3: a non-finite prior sum makes `lprob` return exactly that
prior value at once; the result does not depend on the likelihood
evaluator, its environment, or any other argument — the likelihood is
never invoked. -/
theorem lprob_prior_shortcircuit (f g : LlikeFun) (env env2 : Env)
    (fp : List (ℚ → LogVal)) (lpa lpa2 : Bool) (seed seed2 : Nat)
    (par : List ℚ) (lin lin2 : Option Bool) (temp temp2 : ℚ)
    (pol pol2 : String) (st : RngState)
    (h : (lprior fp par).isinf = true) :
    lprob f env fp lpa seed par lin temp pol st =
      Except.ok (lprior fp par, st) ∧
    lprob f env fp lpa seed par lin temp pol st =
      lprob g env2 fp lpa2 seed2 par lin2 temp2 pol2 st := by
  constructor <;> simp [lprob, h]

/-- Claim C3, witness: out-of-bounds prior at a concrete point. -/
theorem lprob_prior_shortcircuit_witness :
    (lprior fpNeg [0]).isinf = true ∧
    lprob (llike envKF) envKF fpNeg true 0 [0] none 1 "set" ⟨0⟩ =
      Except.ok (lprior fpNeg [0], ⟨0⟩) :=
  ⟨rfl, (lprob_prior_shortcircuit (llike envKF) (llike envFailLl) envKF
    envFailLl fpNeg true false 0 1 [0] none (some true) 1 2 "set" "vec"
    ⟨0⟩ rfl).1⟩

/-- Claim C4: with a finite prior and a positive temperature, a `-inf`
likelihood from `llike` is returned by `lprob` directly, without the prior
term being added to it. -/
theorem lprob_neginf_like_propagates (env : Env) (fp : List (ℚ → LogVal))
    (lpa : Bool) (seed : Nat) (par : List ℚ) (lin : Option Bool) (temp : ℚ)
    (pol : String) (st : RngState) (p : ℚ) (sl : Nat) (st1 st2 : RngState)
    (hp : lprior fp par = LogVal.finite p)
    (hs : resolveSeed env pol seed par st = Except.ok (sl, st1))
    (ht : 0 < temp)
    (hl : llike env par (lin.getD lpa) sl st1 =
      Except.ok (LogVal.neginf, st2)) :
    lprob (llike env) env fp lpa seed par lin temp pol st =
      Except.ok (LogVal.neginf, st2) := by
  have ht0 : temp ≠ 0 := ne_of_gt ht
  simp [lprob, hp, hs, hl, LogVal.isinf, LogVal.scale, ht0, ht]

/-- Claim C4, witness: a failing filter run at a concrete point. -/
theorem lprob_neginf_like_propagates_witness :
    lprior fpFin [0] = LogVal.finite 2 ∧
    lprob (llike envFailLl) envFailLl fpFin false 9 [0] none 1 "set" ⟨3⟩ =
      Except.ok (LogVal.neginf, ⟨3⟩) :=
  ⟨lprior_fpFin_eval, lprob_neginf_like_propagates envFailLl fpFin false 9
    [0] none 1 "set" ⟨3⟩ 2 9 ⟨3⟩ ⟨3⟩ lprior_fpFin_eval rfl (by norm_num)
    rfl⟩

/-- Claim C5: with a finite prior, temperature 0 makes `lprob` return the
prior term alone (the seed having been resolved first), for every
likelihood evaluator — the likelihood is never invoked. -/
theorem lprob_temp_zero_prior_only (f g : LlikeFun) (env : Env)
    (fp : List (ℚ → LogVal)) (lpa : Bool) (seed : Nat) (par : List ℚ)
    (lin : Option Bool) (pol : String) (st : RngState) (p : ℚ)
    (sl : Nat) (st1 : RngState)
    (hp : lprior fp par = LogVal.finite p)
    (hs : resolveSeed env pol seed par st = Except.ok (sl, st1)) :
    lprob f env fp lpa seed par lin 0 pol st =
      Except.ok (LogVal.finite p, st1) ∧
    lprob f env fp lpa seed par lin 0 pol st =
      lprob g env fp lpa seed par lin 0 pol st := by
  have h1 : lprob f env fp lpa seed par lin 0 pol st =
      Except.ok (LogVal.finite p, st1) := by
    simp [lprob, hp, hs, LogVal.isinf, LogVal.add]
  have h2 : lprob g env fp lpa seed par lin 0 pol st =
      Except.ok (LogVal.finite p, st1) := by
    simp [lprob, hp, hs, LogVal.isinf, LogVal.add]
  exact ⟨h1, h1.trans h2.symm⟩

/-- Claim C5, witness: temperature 0 at a concrete point, compared across
a succeeding and a failing likelihood evaluator. -/
theorem lprob_temp_zero_prior_only_witness :
    lprior fpFin [0] = LogVal.finite 2 ∧
    lprob (llike envKF) envKF fpFin true 4 [0] none 0 "set" ⟨5⟩ =
      Except.ok (LogVal.finite 2, ⟨5⟩) ∧
    lprob (llike envKF) envKF fpFin true 4 [0] none 0 "set" ⟨5⟩ =
      lprob (llike envFailLl) envKF fpFin true 4 [0] none 0 "set" ⟨5⟩ :=
  ⟨lprior_fpFin_eval,
   (lprob_temp_zero_prior_only (llike envKF) (llike envFailLl) envKF fpFin
     true 4 [0] none "set" ⟨5⟩ 2 4 ⟨5⟩ lprior_fpFin_eval rfl).1,
   (lprob_temp_zero_prior_only (llike envKF) (llike envFailLl) envKF fpFin
     true 4 [0] none "set" ⟨5⟩ 2 4 ⟨5⟩ lprior_fpFin_eval rfl).2⟩

/-- Claim C8, counterexample: for a parameter vector with `-inf` prior, an
invalid seed policy does not raise — `lprob` returns the prior `-inf`
normally, because the policy check sits after the prior short-circuit. -/
theorem lprob_invalid_seed_cex :
    lprob (llike envKF) envKF fpNeg true 0 [0] none 1 "foo" ⟨0⟩ =
      Except.ok (LogVal.neginf, ⟨0⟩) ∧
    lprob (llike envKF) envKF fpNeg true 0 [0] none 1 "foo" ⟨0⟩ ≠
      Except.error Exc.notImplementedError :=
  ⟨rfl, fun h => Except.noConfusion h⟩

/-- Claim C8 (amended): for every parameter vector whose prior log-density
is finite, a seed policy other than "vec", "rand" or "set" raises
`NotImplementedError` from `lprob`. -/
theorem lprob_invalid_seed_raises (f : LlikeFun) (env : Env)
    (fp : List (ℚ → LogVal)) (lpa : Bool) (seed : Nat) (par : List ℚ)
    (lin : Option Bool) (temp : ℚ) (pol : String) (st : RngState) (p : ℚ)
    (hp : lprior fp par = LogVal.finite p)
    (h1 : pol ≠ "vec") (h2 : pol ≠ "rand") (h3 : pol ≠ "set") :
    lprob f env fp lpa seed par lin temp pol st =
      Except.error Exc.notImplementedError := by
  simp [lprob, resolveSeed, hp, h1, h2, h3, LogVal.isinf]

/-- Claim C8, witness: invalid policy "foo" at a finite-prior point. -/
theorem lprob_invalid_seed_raises_witness :
    lprior fpFin [0] = LogVal.finite 2 ∧
    lprob (llike envKF) envKF fpFin true 0 [0] none 1 "foo" ⟨0⟩ =
      Except.error Exc.notImplementedError :=
  ⟨lprior_fpFin_eval, lprob_invalid_seed_raises (llike envKF) envKF fpFin
    true 0 [0] none 1 "foo" ⟨0⟩ 2 lprior_fpFin_eval (by decide) (by decide)
    (by decide)⟩

/-- Claim C10: the seed-policy argument is validated only after the prior
short-circuit, so a `-inf` prior makes `lprob` return `-inf` normally even
under an invalid policy. -/
theorem lprob_shortcircuit_skips_seed_check (f : LlikeFun) (env : Env)
    (fp : List (ℚ → LogVal)) (lpa : Bool) (seed : Nat) (par : List ℚ)
    (lin : Option Bool) (temp : ℚ) (pol : String) (st : RngState)
    (hp : lprior fp par = LogVal.neginf)
    (h1 : pol ≠ "vec") (h2 : pol ≠ "rand") (h3 : pol ≠ "set") :
    lprob f env fp lpa seed par lin temp pol st =
      Except.ok (LogVal.neginf, st) := by
  simp [lprob, hp, LogVal.isinf]

/-- Claim C10, witness: invalid policy "bogus" at an out-of-bounds point. -/
theorem lprob_shortcircuit_skips_seed_check_witness :
    lprior fpNeg [1] = LogVal.neginf ∧
    lprob (llike envKF) envKF fpNeg false 3 [1] none 1 "bogus" ⟨7⟩ =
      Except.ok (LogVal.neginf, ⟨7⟩) :=
  ⟨rfl, lprob_shortcircuit_skips_seed_check (llike envKF) envKF fpNeg false
    3 [1] none 1 "bogus" ⟨7⟩ rfl (by decide) (by decide) (by decide)⟩

/-- Retry loop, success case: if every attempt before `k` fails and attempt
`k` (within the remaining budget) succeeds, the loop returns that value. -/
theorem runAttempts_ok {A : Type} (att : Nat → Except Exc A) :
    ∀ k natt rem v, k ≤ rem →
      (∀ j, j < k → ∃ e, att (natt + j) = Except.error e) →
      att (natt + k) = Except.ok v →
      runAttempts att natt rem = Except.ok v := by
  intro k
  induction k with
  | zero =>
    intro natt rem v _ _ hsucc
    rw [Nat.add_zero] at hsucc
    cases rem with
    | zero => simpa [runAttempts] using hsucc
    | succ r => simp [runAttempts, hsucc]
  | succ k ih =>
    intro natt rem v hk hfail hsucc
    cases rem with
    | zero => omega
    | succ r =>
      obtain ⟨e, he⟩ := hfail 0 (Nat.succ_pos k)
      rw [Nat.add_zero] at he
      have hstep : runAttempts att natt (r + 1) =
          runAttempts att (natt + 1) r := by
        simp [runAttempts, he]
      rw [hstep]
      refine ih (natt + 1) r v (Nat.le_of_succ_le_succ hk) ?_ ?_
      · intro j hj
        obtain ⟨e2, he2⟩ := hfail (j + 1) (Nat.succ_lt_succ hj)
        exact ⟨e2, by rw [show natt + 1 + j = natt + (j + 1) by omega]; exact he2⟩
      · rw [show natt + 1 + k = natt + (k + 1) by omega]; exact hsucc

/-- Retry loop, exhaustion case: if every attempt in the budget fails, the
loop re-raises the exception of the final attempt. -/
theorem runAttempts_error {A : Type} (att : Nat → Except Exc A) :
    ∀ rem natt e, (∀ j, j < rem → ∃ e2, att (natt + j) = Except.error e2) →
      att (natt + rem) = Except.error e →
      runAttempts att natt rem = Except.error e := by
  intro rem
  induction rem with
  | zero =>
    intro natt e _ hlast
    rw [Nat.add_zero] at hlast
    simpa [runAttempts] using hlast
  | succ r ih =>
    intro natt e hfail hlast
    obtain ⟨e0, he0⟩ := hfail 0 (Nat.succ_pos r)
    rw [Nat.add_zero] at he0
    have hstep : runAttempts att natt (r + 1) =
        runAttempts att (natt + 1) r := by
      simp [runAttempts, he0]
    rw [hstep]
    refine ih (natt + 1) e ?_ ?_
    · intro j hj
      obtain ⟨e2, he2⟩ := hfail (j + 1) (Nat.succ_lt_succ hj)
      exact ⟨e2, by rw [show natt + 1 + j = natt + (j + 1) by omega]; exact he2⟩
    · rw [show natt + 1 + r = natt + (r + 1) by omega]; exact hlast

/-- The expanded pair list projected to its first components is the grid
order: each sample entry repeated `nsamples` times, in grid order. -/
theorem expandSample_map_fst {P : Type} (sample : List P) (n : Nat) :
    (expandSample sample n).map Prod.fst = gridOrder sample n := by
  induction sample with
  | nil => simp [expandSample, gridOrder]
  | cons x xs ih =>
    simp only [expandSample, gridOrder, List.map_append, ih,
      List.map_map]
    congr 1
    simp [Function.comp_def, List.map_const']

/-- Claim C6: whenever `extract` succeeds, its report lists `pars` in grid
cross-product order — each sample entry repeated `nsamples` times, in input
order (the mapper consumes results in submission order, which the pathos
ordered-imap contract guarantees regardless of worker completion order) —
and the means, covs, resid and flags columns are the per-pair runner
records in exactly that order. -/
theorem extract_order_preserved {P M C R F : Type}
    (env : ExtractEnv P M C R F) (sample : List (Option P)) (n : Nat)
    (rep : ExtractReport P M C R F)
    (h : extract env sample n = Except.ok rep) :
    rep.pars = gridOrder sample n ∧
    ∃ recs, mapOrdered (runner env) (expandSample sample n) =
        Except.ok recs ∧
      rep.means = recs.map SampleRecord.mean ∧
      rep.covs = recs.map SampleRecord.covs ∧
      rep.resid = recs.map SampleRecord.resid ∧
      rep.flags = recs.map SampleRecord.flags := by
  simp only [extract] at h
  cases hm : mapOrdered (runner env) (expandSample sample n) with
  | error e =>
    rw [hm] at h
    exact Except.noConfusion h
  | ok recs =>
    rw [hm] at h
    have h2 : ({ pars := (expandSample sample n).map Prod.fst,
                 means := recs.map SampleRecord.mean,
                 covs := recs.map SampleRecord.covs,
                 resid := recs.map SampleRecord.resid,
                 flags := recs.map SampleRecord.flags } :
        ExtractReport P M C R F) = rep := Except.ok.inj h
    subst h2
    exact ⟨expandSample_map_fst sample n, recs, rfl, rfl, rfl, rfl, rfl⟩

/-- Example extraction environment in which every collaborator succeeds
and the decomposition is constant. -/
def exEnv : ExtractEnv ℚ ℚ Unit ℚ Bool :=
  { setPar := fun _ => Except.ok ()
    runFilter := fun _ => Except.ok ()
    npas := fun _ _ _ => Except.ok ⟨[3], (), [4], true⟩ }

/-- Claim C6, witness: a two-point grid with two replicates yields the
four-entry report in grid order. -/
theorem extract_order_preserved_witness :
    extract exEnv [some 1, some 2] 2 =
      Except.ok { pars := [some 1, some 1, some 2, some 2],
                  means := [3, 3, 3, 3], covs := [(), (), (), ()],
                  resid := [4, 4, 4, 4],
                  flags := [true, true, true, true] } ∧
    ([some 1, some 1, some 2, some 2] : List (Option ℚ)) =
      gridOrder [some 1, some 2] 2 :=
  ⟨rfl, (extract_order_preserved exEnv [some 1, some 2] 2 _ rfl).1⟩

/-- Claim C7: inside `runner` (with parameter setting and the filter re-run
succeeding) the decomposition is attempted at most 4 times — a first
success at attempt `k` within the budget is returned, failures on attempts
before the fourth are swallowed, a fourth failure propagates — a successful
attempt yields the first replicate mean, the covariances, the first
replicate residual and the flags, and a propagated runner exception aborts
`extract`. -/
theorem runner_retry_budget {P M C R F : Type} (env : ExtractEnv P M C R F)
    (par : Option P) (sl : Nat)
    (hset : setParStep env par = Except.ok ())
    (hrun : env.runFilter par = Except.ok ()) :
    (∀ k v, k ≤ 3 →
      (∀ j, j < k → ∃ e, attemptRecord env par sl j = Except.error e) →
      attemptRecord env par sl k = Except.ok v →
      runner env (par, sl) = Except.ok v) ∧
    ((∀ j, j < 3 → ∃ e, attemptRecord env par sl j = Except.error e) →
      ∀ e, attemptRecord env par sl 3 = Except.error e →
      runner env (par, sl) = Except.error e) ∧
    (∀ natt o m ms r rs,
      env.npas par sl natt = Except.ok o → o.means = m :: ms →
      o.resid = r :: rs →
      attemptRecord env par sl natt = Except.ok ⟨m, o.covs, r, o.flags⟩) ∧
    (∀ e, runner env (par, 0) = Except.error e →
      extract env [par] 1 = Except.error e) := by
  have hr : runner env (par, sl) =
      runAttempts (attemptRecord env par sl) 0 3 := by
    simp [runner, hset, hrun]
  refine ⟨?_, ?_, ?_, ?_⟩
  · intro k v hk hfail hsucc
    rw [hr]
    refine runAttempts_ok (attemptRecord env par sl) k 0 3 v hk ?_ ?_
    · intro j hj
      simpa using hfail j hj
    · simpa using hsucc
  · intro hfail e hlast
    rw [hr]
    refine runAttempts_error (attemptRecord env par sl) 3 0 e ?_ ?_
    · intro j hj
      simpa using hfail j hj
    · simpa using hlast
  · intro natt o m ms r rs h1 h2 h3
    simp [attemptRecord, h1, h2, h3]
  · intro e he
    have hp : expandSample ([par] : List (Option P)) 1 = [(par, 0)] := rfl
    simp [extract, hp, mapOrdered, he]

/-- Example extraction environment whose decomposition fails on attempts
0, 1 and 2 and succeeds on attempt 3. -/
def exEnvRetry : ExtractEnv ℚ ℚ Unit ℚ Bool :=
  { setPar := fun _ => Except.ok ()
    runFilter := fun _ => Except.ok ()
    npas := fun _ _ natt =>
      if natt < 3 then Except.error (Exc.numerical natt)
      else Except.ok ⟨[5], (), [6], false⟩ }

/-- Example extraction environment whose decomposition always fails. -/
def exEnvFail : ExtractEnv ℚ ℚ Unit ℚ Bool :=
  { setPar := fun _ => Except.ok ()
    runFilter := fun _ => Except.ok ()
    npas := fun _ _ _ => Except.error (Exc.numerical 9) }

/-- Claim C7, witness: three failures then a success yield the successful
record; four failures propagate the final exception and abort the
extraction. -/
theorem runner_retry_budget_witness :
    runner exEnvRetry (some 1, 0) = Except.ok ⟨5, (), 6, false⟩ ∧
    runner exEnvFail (some 1, 0) = Except.error (Exc.numerical 9) ∧
    extract exEnvFail [some 1] 1 = Except.error (Exc.numerical 9) :=
  ⟨(runner_retry_budget exEnvRetry (some 1) 0 rfl rfl).1 3 ⟨5, (), 6, false⟩
      (le_refl 3)
      (fun j hj => ⟨Exc.numerical j, by simp [attemptRecord, exEnvRetry, hj]⟩)
      rfl,
   (runner_retry_budget exEnvFail (some 1) 0 rfl rfl).2.1
      (fun j _ => ⟨Exc.numerical 9, rfl⟩) (Exc.numerical 9) rfl,
   (runner_retry_budget exEnvFail (some 1) 0 rfl rfl).2.2.2
      (Exc.numerical 9)
      ((runner_retry_budget exEnvFail (some 1) 0 rfl rfl).2.1
        (fun j _ => ⟨Exc.numerical 9, rfl⟩) (Exc.numerical 9) rfl)⟩

/-- Claim C9, counterexample: a session whose `pool` attribute holds `None`
with debug off — the configured no-pool state — makes the `mapper`
accessor raise `AttributeError` instead of returning the sequential map. -/
theorem mapper_none_pool_cex :
    mapper (⟨some none, false⟩ : Session Unit) =
      Except.error Exc.attributeError ∧
    mapper (⟨some none, false⟩ : Session Unit) ≠
      Except.ok MapperChoice.seqMap :=
  ⟨rfl, fun h => Except.noConfusion h⟩

/-- Claim C9 (amended): `mapper` returns the pool imap exactly when the
session is not in debug mode and the pool attribute is present and
non-null; it returns the sequential map whenever debug mode is on or the
pool attribute is absent; but when the pool attribute is present and null
with debug off it raises `AttributeError` rather than returning the
sequential map. -/
theorem mapper_characterization {P : Type} (s : Session P) :
    (∀ p, mapper s = Except.ok (MapperChoice.imap p) ↔
      s.poolAttr = some (some p) ∧ s.debug = false) ∧
    (s.debug = true ∨ s.poolAttr = none →
      mapper s = Except.ok MapperChoice.seqMap) ∧
    (s.poolAttr = some none → s.debug = false →
      mapper s = Except.error Exc.attributeError) := by
  obtain ⟨pa, d⟩ := s
  cases pa with
  | none => cases d <;> simp [mapper]
  | some pl =>
    cases pl with
    | none => cases d <;> simp [mapper]
    | some p2 => cases d <;> simp [mapper]

/-- Claim C9, witness: the three reachable outcomes at concrete
sessions. -/
theorem mapper_characterization_witness :
    mapper (⟨some (some 0), false⟩ : Session Nat) =
      Except.ok (MapperChoice.imap 0) ∧
    mapper (⟨none, false⟩ : Session Nat) = Except.ok MapperChoice.seqMap ∧
    mapper (⟨some (some 0), true⟩ : Session Nat) =
      Except.ok MapperChoice.seqMap ∧
    mapper (⟨some none, false⟩ : Session Nat) =
      Except.error Exc.attributeError :=
  ⟨((mapper_characterization (⟨some (some 0), false⟩ : Session Nat)).1 0).mpr
      ⟨rfl, rfl⟩,
   (mapper_characterization (⟨none, false⟩ : Session Nat)).2.1 (Or.inr rfl),
   (mapper_characterization (⟨some (some 0), true⟩ : Session Nat)).2.1
      (Or.inl rfl),
   (mapper_characterization (⟨some none, false⟩ : Session Nat)).2.2 rfl rfl⟩
